import Mathlib

/-!
Shallow embedding of the mgc-sdk-go service layer: the Kubernetes node-pool
service (kubernetes/nodepool.go), the compute snapshot service
(compute/snapshots.go), the container-registry credentials service
(containerregistry/credentials.go) and the load-balancer health-check
service (lbaas health-check file).

The shared HTTP transport (internal/http) is out of scope of the SDK layer:
each operation takes the outcome of request construction and of the shared
execute helper as explicit oracle arguments of type `Except GoError _`, and
the embedding records the request the operation builds, the Go return value
and the Go error.
-/

/-- JSON values as produced by Go encoding/json for the request bodies in
scope. An object is the ordered list of its serialized fields. -/
inductive Json where
  | null : Json
  | str : String → Json
  | num : Int → Json
  | bool : Bool → Json
  | arr : List Json → Json
  | obj : List (String × Json) → Json

/-- An outgoing HTTP request as the SDK layer determines it: verb, path,
query parameters as decoded (name, value) pairs in the order they are
added, and the JSON body handed to the request constructor. -/
structure HttpRequest where
  method : String
  path : String
  query : List (String × String)
  body : Option Json

/-- Go errors surfaced by this layer: a local validation error carrying the
offending field name and message, or an error value produced by the shared
request constructor / execute helper, carried through unchanged. -/
inductive GoError where
  | validation (field : String) (message : String) : GoError
  | httpError (message : String) : GoError
  deriving DecidableEq, Repr

/-- The observable effect of one service-method call: the request the method
built (none when it returned before building one), the Go return value
(zero value on error paths) and the Go error return. -/
structure CallResult (α : Type) where
  request : Option HttpRequest
  value : α
  error : Option GoError

/-- Go strconv.Itoa: decimal rendering of an integer. -/
def itoa (n : Int) : String := toString n

/-- Modelled from the spec: the shared validation message constant
utils.CannotBeEmpty (internal/utils, not under src/); the spec only
requires that validation errors name the offending field. -/
def cannotBeEmpty : String := "cannot be empty"

/-! ## kubernetes/nodepool.go -/

def nodePoolIdField : String := "nodePoolID"

def clusterIdField : String := "clusterID"

/-- The Go constant clusterNodepoolURL = "/v0/clusters/%s/node_pools/%s",
applied with fmt.Sprintf to the two identifiers. -/
def clusterNodepoolURL (clusterID nodePoolID : String) : String :=
  "/v0/clusters/" ++ clusterID ++ "/node_pools/" ++ nodePoolID

/-- kubernetes ListOptions: optional limit/offset/sort and an expand list
(Go pointers become Option, the slice becomes a list). -/
structure ListOptions where
  Limit : Option Int
  Offset : Option Int
  Sort_ : Option String
  Expand : List String
  deriving DecidableEq, Repr

/-- AutoScale: min/max replica bounds, both optional. -/
structure AutoScale where
  MinReplicas : Option Int
  MaxReplicas : Option Int
  deriving DecidableEq, Repr

/-- Taint: a node taint with key, value and effect. -/
structure Taint where
  Key : String
  Value : String
  Effect : String
  deriving DecidableEq, Repr

/-- PatchNodePoolRequest: the update payload, carrying only the optional
replicas count and auto-scale configuration. -/
structure PatchNodePoolRequest where
  Replicas : Option Int
  AutoScale : Option AutoScale
  deriving DecidableEq, Repr

/-- CreateNodePoolRequest: the create payload for a node pool. -/
structure CreateNodePoolRequest where
  Name : String
  Flavor : String
  Replicas : Int
  Tags : Option (List String)
  Taints : Option (List Taint)
  AutoScale : Option AutoScale
  MaxPodsPerNode : Option Int
  AvailabilityZones : Option (List String)
  deriving DecidableEq, Repr

/-- Modelled from the spec: Go time.Time values decoded from response
bodies (standard library type); no claim inspects them. -/
structure GoTime where
  unixNanos : Int
  deriving DecidableEq, Repr

/-- Modelled from the spec: node-pool Status record (defined elsewhere in
the kubernetes package, not under src/); no claim inspects it. -/
structure Status where
  deriving DecidableEq, Repr

/-- Modelled from the spec: node MessageState record (defined elsewhere in
the kubernetes package, not under src/); no claim inspects it. -/
structure MessageState where
  deriving DecidableEq, Repr

/-- Modelled from the spec: instance Flavor record (defined elsewhere in
the kubernetes package, not under src/); no claim inspects it. -/
structure Flavor where
  deriving DecidableEq, Repr

/-- InstanceTemplate: the template for node instances. -/
structure InstanceTemplate where
  Flavor : Flavor
  NodeImage : String
  DiskSize : Int
  DiskType : String
  deriving DecidableEq, Repr

/-- NodePool: a Kubernetes node pool as decoded from a response body
(Go maps become association lists). -/
structure NodePool where
  ID : String
  Name : String
  InstanceTemplate : InstanceTemplate
  Replicas : Int
  Zone : Option (List String)
  Tags : Option (List String)
  Labels : List (String × String)
  Taints : Option (List Taint)
  SecurityGroups : Option (List String)
  CreatedAt : Option GoTime
  UpdatedAt : Option GoTime
  AutoScale : Option AutoScale
  Status : Status
  Flavor : String
  MaxPodsPerNode : Option Int
  AvailabilityZones : Option (List String)
  deriving DecidableEq, Repr

/-- Addresses: a network address of a node. -/
structure Addresses where
  Address : String
  AddressType : String
  deriving DecidableEq, Repr

/-- Allocatable: allocatable resources of a node. -/
structure Allocatable where
  CPU : String
  EphemeralStorage : String
  Hugepages1Gi : String
  Hugepages2Mi : String
  Memory : String
  Pods : String
  deriving DecidableEq, Repr

/-- Capacity: total capacity of a node. -/
structure Capacity where
  CPU : String
  EphemeralStorage : String
  Hugepages1Gi : String
  Hugepages2Mi : String
  Memory : String
  Pods : String
  deriving DecidableEq, Repr

/-- Infrastructure: node infrastructure information. -/
structure Infrastructure where
  Allocatable : Allocatable
  Architecture : String
  Capacity : Capacity
  ContainerRuntimeVersion : String
  KernelVersion : String
  KubeProxyVersion : String
  KubeletVersion : String
  OperatingSystem : String
  OsImage : String
  deriving DecidableEq, Repr

/-- Node: a Kubernetes node as decoded from a response body. -/
structure Node where
  Addresses : List Addresses
  NodeAnnotations : List (String × String)
  ClusterName : String
  CreatedAt : GoTime
  Flavor : String
  ID : String
  Infrastructure : Infrastructure
  Labels : List (String × String)
  Name : String
  Namespace : String
  NodeImage : String
  NodepoolName : String
  Status : MessageState
  Taints : Option (List Taint)
  Zone : Option String
  deriving DecidableEq, Repr

/-- NodePoolList: the response wrapper when listing node pools. -/
structure NodePoolList where
  Results : List NodePool
  deriving DecidableEq, Repr

/-- The NodeList wrapper local to nodePoolService.Nodes. -/
structure NodeList where
  Results : List Node
  deriving DecidableEq, Repr

/-- Go encoding/json serialization of Taint (all fields plain). -/
def Taint.toJson (t : Taint) : List (String × Json) :=
  [("key", Json.str t.Key), ("value", Json.str t.Value), ("effect", Json.str t.Effect)]

/-- Go encoding/json serialization of AutoScale: min_replicas and
max_replicas carry no omitempty, so a nil pointer serializes as null. -/
def AutoScale.toJson (a : AutoScale) : List (String × Json) :=
  [("min_replicas", match a.MinReplicas with | some n => Json.num n | none => Json.null),
   ("max_replicas", match a.MaxReplicas with | some n => Json.num n | none => Json.null)]

/-- Go encoding/json serialization of PatchNodePoolRequest: replicas and
auto_scale are both tagged omitempty on pointer fields, so each is omitted
exactly when the pointer is nil. -/
def PatchNodePoolRequest.toJson (r : PatchNodePoolRequest) : List (String × Json) :=
  (match r.Replicas with | some n => [("replicas", Json.num n)] | none => []) ++
  (match r.AutoScale with | some a => [("auto_scale", Json.obj a.toJson)] | none => [])

/-- Go encoding/json serialization of CreateNodePoolRequest: name, flavor
and replicas are plain; the remaining pointer fields are omitempty. -/
def CreateNodePoolRequest.toJson (r : CreateNodePoolRequest) : List (String × Json) :=
  [("name", Json.str r.Name), ("flavor", Json.str r.Flavor), ("replicas", Json.num r.Replicas)] ++
  (match r.Tags with | some ts => [("tags", Json.arr (ts.map Json.str))] | none => []) ++
  (match r.Taints with | some ts => [("taints", Json.arr (ts.map (fun t => Json.obj t.toJson)))] | none => []) ++
  (match r.AutoScale with | some a => [("auto_scale", Json.obj a.toJson)] | none => []) ++
  (match r.MaxPodsPerNode with | some n => [("max_pods_per_node", Json.num n)] | none => []) ++
  (match r.AvailabilityZones with | some zs => [("availability_zones", Json.arr (zs.map Json.str))] | none => [])

/-- The query block of nodePoolService.List: _limit, _offset and _sort are
added in that order, each only when its pointer is non-nil; the Expand
field of ListOptions is never consulted. -/
def nodePoolListQuery (opts : ListOptions) : List (String × String) :=
  (match opts.Limit with | some l => [("_limit", itoa l)] | none => []) ++
  (match opts.Offset with | some o => [("_offset", itoa o)] | none => []) ++
  (match opts.Sort_ with | some s => [("_sort", s)] | none => [])

/-- nodePoolService.Nodes: validates both identifiers, then issues
GET {clusterNodepoolURL}/nodes through the shared helper. -/
def nodePoolNodes (oracle : Except GoError NodeList)
    (clusterID nodePoolID : String) : CallResult (List Node) :=
  if clusterID = "" then
    ⟨none, [], some (GoError.validation clusterIdField cannotBeEmpty)⟩
  else if nodePoolID = "" then
    ⟨none, [], some (GoError.validation nodePoolIdField cannotBeEmpty)⟩
  else
    let req : HttpRequest :=
      ⟨"GET", clusterNodepoolURL clusterID nodePoolID ++ "/nodes", [], none⟩
    match oracle with
    | Except.error e => ⟨some req, [], some e⟩
    | Except.ok resp => ⟨some req, resp.Results, none⟩

/-- nodePoolService.List: validates only the cluster identifier, then
issues GET /v1alpha0/clusters/{clusterID}/node-pools with the query built
by nodePoolListQuery. -/
def nodePoolList (oracle : Except GoError NodePoolList)
    (clusterID : String) (opts : ListOptions) : CallResult (List NodePool) :=
  if clusterID = "" then
    ⟨none, [], some (GoError.validation clusterIdField cannotBeEmpty)⟩
  else
    let req : HttpRequest :=
      ⟨"GET", "/v1alpha0/clusters/" ++ clusterID ++ "/node-pools", nodePoolListQuery opts, none⟩
    match oracle with
    | Except.error e => ⟨some req, [], some e⟩
    | Except.ok resp => ⟨some req, resp.Results, none⟩

/-- nodePoolService.Create: validates only the cluster identifier, then
issues POST /v0/clusters/{clusterID}/node_pools with the serialized create
payload, returning the helper result directly. -/
def nodePoolCreate (oracle : Except GoError NodePool)
    (clusterID : String) (req : CreateNodePoolRequest) : CallResult (Option NodePool) :=
  if clusterID = "" then
    ⟨none, none, some (GoError.validation clusterIdField cannotBeEmpty)⟩
  else
    let httpReq : HttpRequest :=
      ⟨"POST", "/v0/clusters/" ++ clusterID ++ "/node_pools", [], some (Json.obj req.toJson)⟩
    match oracle with
    | Except.error e => ⟨some httpReq, none, some e⟩
    | Except.ok np => ⟨some httpReq, some np, none⟩

/-- nodePoolService.Get: validates both identifiers, then issues
GET {clusterNodepoolURL}, returning the helper result directly. -/
def nodePoolGet (oracle : Except GoError NodePool)
    (clusterID nodePoolID : String) : CallResult (Option NodePool) :=
  if clusterID = "" then
    ⟨none, none, some (GoError.validation clusterIdField cannotBeEmpty)⟩
  else if nodePoolID = "" then
    ⟨none, none, some (GoError.validation nodePoolIdField cannotBeEmpty)⟩
  else
    let req : HttpRequest := ⟨"GET", clusterNodepoolURL clusterID nodePoolID, [], none⟩
    match oracle with
    | Except.error e => ⟨some req, none, some e⟩
    | Except.ok np => ⟨some req, some np, none⟩

/-- nodePoolService.Update: validates both identifiers, then issues
PATCH {clusterNodepoolURL} with the serialized patch payload. -/
def nodePoolUpdate (oracle : Except GoError NodePool)
    (clusterID nodePoolID : String) (req : PatchNodePoolRequest) : CallResult (Option NodePool) :=
  if clusterID = "" then
    ⟨none, none, some (GoError.validation clusterIdField cannotBeEmpty)⟩
  else if nodePoolID = "" then
    ⟨none, none, some (GoError.validation nodePoolIdField cannotBeEmpty)⟩
  else
    let httpReq : HttpRequest :=
      ⟨"PATCH", clusterNodepoolURL clusterID nodePoolID, [], some (Json.obj req.toJson)⟩
    match oracle with
    | Except.error e => ⟨some httpReq, none, some e⟩
    | Except.ok np => ⟨some httpReq, some np, none⟩

/-- nodePoolService.Delete: validates both identifiers, then issues
DELETE {clusterNodepoolURL}, returning only the helper error. -/
def nodePoolDelete (oracle : Except GoError Unit)
    (clusterID nodePoolID : String) : CallResult Unit :=
  if clusterID = "" then
    ⟨none, (), some (GoError.validation clusterIdField cannotBeEmpty)⟩
  else if nodePoolID = "" then
    ⟨none, (), some (GoError.validation nodePoolIdField cannotBeEmpty)⟩
  else
    let req : HttpRequest := ⟨"DELETE", clusterNodepoolURL clusterID nodePoolID, [], none⟩
    match oracle with
    | Except.error e => ⟨some req, (), some e⟩
    | Except.ok _ => ⟨some req, (), none⟩

/-! ## compute/snapshots.go -/

/-- SnapshotImageExpand: include image information in snapshot responses. -/
def SnapshotImageExpand : String := "image"

/-- SnapshotMachineTypeExpand: include machine type information in snapshot
responses. -/
def SnapshotMachineTypeExpand : String := "machine-type"

/-- Modelled from the spec: compute ListOptions (defined elsewhere in the
compute package, not under src/): optional limit/offset/sort and an expand
list, exactly the fields snapshotService.List consults. Sort_ renders the
Sort field (Sort is a Lean keyword). -/
structure ComputeListOptions where
  Limit : Option Int
  Offset : Option Int
  Sort_ : Option String
  Expand : List String
  deriving DecidableEq, Repr

/-- Modelled from the spec: IDOrName (defined elsewhere in the compute
package, not under src/): a resource referenced by id or by name, with
each side omitted from JSON when absent. -/
structure IDOrName where
  ID : Option String
  Name : Option String
  deriving DecidableEq, Repr

/-- Modelled from the spec: JSON serialization of IDOrName, each side
omitted when absent. -/
def IDOrName.toJson (r : IDOrName) : List (String × Json) :=
  (match r.ID with | some i => [("id", Json.str i)] | none => []) ++
  (match r.Name with | some n => [("name", Json.str n)] | none => [])

/-- SnapshotInstance: information about the snapshotted instance. -/
structure SnapshotInstance where
  ID : String
  Image : Option IDOrName
  MachineType : Option IDOrName
  deriving DecidableEq, Repr

/-- Snapshot: an instance snapshot as decoded from a response body. -/
structure Snapshot where
  ID : String
  Name : String
  Status : String
  State : String
  CreatedAt : GoTime
  UpdatedAt : Option GoTime
  Size : Int
  Instance : Option SnapshotInstance
  deriving DecidableEq, Repr

/-- ListSnapshotsResponse: the response wrapper when listing snapshots. -/
structure ListSnapshotsResponse where
  Snapshots : List Snapshot
  deriving DecidableEq, Repr

/-- CreateSnapshotRequest: the create payload for a snapshot. -/
structure CreateSnapshotRequest where
  Name : String
  Instance : IDOrName
  deriving DecidableEq, Repr

/-- Go encoding/json serialization of CreateSnapshotRequest: name and
instance, both plain. -/
def CreateSnapshotRequest.toJson (r : CreateSnapshotRequest) : List (String × Json) :=
  [("name", Json.str r.Name), ("instance", Json.obj r.Instance.toJson)]

/-- Modelled from the spec: CreateParametersNetwork (defined elsewhere in
the compute package, not under src/); no claim inspects its contents. -/
structure CreateParametersNetwork where
  deriving DecidableEq, Repr

/-- RestoreSnapshotRequest: the payload for restoring an instance from a
snapshot. -/
structure RestoreSnapshotRequest where
  Name : String
  MachineType : IDOrName
  SSHKeyName : Option String
  AvailabilityZone : Option String
  Network : Option CreateParametersNetwork
  UserData : Option String
  deriving DecidableEq, Repr

/-- Go encoding/json serialization of RestoreSnapshotRequest: name and
machine_type plain, the pointer fields omitempty. -/
def RestoreSnapshotRequest.toJson (r : RestoreSnapshotRequest) : List (String × Json) :=
  [("name", Json.str r.Name), ("machine_type", Json.obj r.MachineType.toJson)] ++
  (match r.SSHKeyName with | some k => [("ssh_key_name", Json.str k)] | none => []) ++
  (match r.AvailabilityZone with | some z => [("availability_zone", Json.str z)] | none => []) ++
  (match r.Network with | some _ => [("network", Json.obj [])] | none => []) ++
  (match r.UserData with | some u => [("user_data", Json.str u)] | none => [])

/-- CopySnapshotRequest: the payload for copying a snapshot to another
region. -/
structure CopySnapshotRequest where
  DestinationRegion : String
  deriving DecidableEq, Repr

/-- Go encoding/json serialization of CopySnapshotRequest. -/
def CopySnapshotRequest.toJson (r : CopySnapshotRequest) : List (String × Json) :=
  [("destination_region", Json.str r.DestinationRegion)]

/-- Modelled from the spec: UpdateNameRequest (defined elsewhere in the
compute package, not under src/): the rename payload carrying the new
name. -/
structure UpdateNameRequest where
  Name : String
  deriving DecidableEq, Repr

/-- Modelled from the spec: JSON serialization of UpdateNameRequest. -/
def UpdateNameRequest.toJson (r : UpdateNameRequest) : List (String × Json) :=
  [("name", Json.str r.Name)]

/-- The anonymous result struct of snapshotService.Create and
snapshotService.Restore: only the id field is decoded. -/
structure IdResponse where
  ID : String
  deriving DecidableEq, Repr

/-- The query block of snapshotService.List: _limit, _offset and _sort are
added in that order when non-nil, then expand joined with commas when the
expand list is non-empty. -/
def snapshotListQuery (opts : ComputeListOptions) : List (String × String) :=
  (match opts.Limit with | some l => [("_limit", itoa l)] | none => []) ++
  (match opts.Offset with | some o => [("_offset", itoa o)] | none => []) ++
  (match opts.Sort_ with | some s => [("_sort", s)] | none => []) ++
  (if opts.Expand.isEmpty then [] else [("expand", String.intercalate "," opts.Expand)])

/-- The query block of snapshotService.Get: a single expand parameter,
joined with commas, added only when the expand list is non-empty. -/
def snapshotGetQuery (expand : List String) : List (String × String) :=
  if expand.isEmpty then [] else [("expand", String.intercalate "," expand)]

/-- snapshotService.List: GET /v1/snapshots with the query built by
snapshotListQuery; no identifier validation. -/
def snapshotList (nr : Except GoError Unit) (oracle : Except GoError ListSnapshotsResponse)
    (opts : ComputeListOptions) : CallResult (List Snapshot) :=
  match nr with
  | Except.error e => ⟨none, [], some e⟩
  | Except.ok _ =>
    let req : HttpRequest := ⟨"GET", "/v1/snapshots", snapshotListQuery opts, none⟩
    match oracle with
    | Except.error e => ⟨some req, [], some e⟩
    | Except.ok resp => ⟨some req, resp.Snapshots, none⟩

/-- snapshotService.Create: POST /v1/snapshots with the serialized create
payload, returning the decoded id; no identifier validation. -/
def snapshotCreate (nr : Except GoError Unit) (oracle : Except GoError IdResponse)
    (createReq : CreateSnapshotRequest) : CallResult String :=
  match nr with
  | Except.error e => ⟨none, "", some e⟩
  | Except.ok _ =>
    let req : HttpRequest := ⟨"POST", "/v1/snapshots", [], some (Json.obj createReq.toJson)⟩
    match oracle with
    | Except.error e => ⟨some req, "", some e⟩
    | Except.ok r => ⟨some req, r.ID, none⟩

/-- snapshotService.Get: GET /v1/snapshots/{id} with the query built by
snapshotGetQuery; no identifier validation. -/
def snapshotGet (nr : Except GoError Unit) (oracle : Except GoError Snapshot)
    (id : String) (expand : List String) : CallResult (Option Snapshot) :=
  match nr with
  | Except.error e => ⟨none, none, some e⟩
  | Except.ok _ =>
    let req : HttpRequest := ⟨"GET", "/v1/snapshots/" ++ id, snapshotGetQuery expand, none⟩
    match oracle with
    | Except.error e => ⟨some req, none, some e⟩
    | Except.ok snap => ⟨some req, some snap, none⟩

/-- snapshotService.Delete: DELETE /v1/snapshots/{id}, returning only the
helper error; no identifier validation. -/
def snapshotDelete (nr : Except GoError Unit) (oracle : Except GoError Unit)
    (id : String) : CallResult Unit :=
  match nr with
  | Except.error e => ⟨none, (), some e⟩
  | Except.ok _ =>
    let req : HttpRequest := ⟨"DELETE", "/v1/snapshots/" ++ id, [], none⟩
    match oracle with
    | Except.error e => ⟨some req, (), some e⟩
    | Except.ok _ => ⟨some req, (), none⟩

/-- snapshotService.Rename: PATCH /v1/snapshots/{id}/rename with the
serialized UpdateNameRequest; no identifier validation. -/
def snapshotRename (nr : Except GoError Unit) (oracle : Except GoError Unit)
    (id newName : String) : CallResult Unit :=
  match nr with
  | Except.error e => ⟨none, (), some e⟩
  | Except.ok _ =>
    let req : HttpRequest :=
      ⟨"PATCH", "/v1/snapshots/" ++ id ++ "/rename", [],
        some (Json.obj (UpdateNameRequest.toJson ⟨newName⟩))⟩
    match oracle with
    | Except.error e => ⟨some req, (), some e⟩
    | Except.ok _ => ⟨some req, (), none⟩

/-- snapshotService.Restore: POST /v1/snapshots/{id} with the serialized
restore payload, returning the decoded id; no identifier validation. -/
def snapshotRestore (nr : Except GoError Unit) (oracle : Except GoError IdResponse)
    (id : String) (restoreReq : RestoreSnapshotRequest) : CallResult String :=
  match nr with
  | Except.error e => ⟨none, "", some e⟩
  | Except.ok _ =>
    let req : HttpRequest :=
      ⟨"POST", "/v1/snapshots/" ++ id, [], some (Json.obj restoreReq.toJson)⟩
    match oracle with
    | Except.error e => ⟨some req, "", some e⟩
    | Except.ok r => ⟨some req, r.ID, none⟩

/-- snapshotService.Copy: POST /v1/snapshots/{id}/copy with the serialized
copy payload, returning only the helper error; no identifier validation. -/
def snapshotCopy (nr : Except GoError Unit) (oracle : Except GoError Unit)
    (id : String) (copyReq : CopySnapshotRequest) : CallResult Unit :=
  match nr with
  | Except.error e => ⟨none, (), some e⟩
  | Except.ok _ =>
    let req : HttpRequest :=
      ⟨"POST", "/v1/snapshots/" ++ id ++ "/copy", [], some (Json.obj copyReq.toJson)⟩
    match oracle with
    | Except.error e => ⟨some req, (), some e⟩
    | Except.ok _ => ⟨some req, (), none⟩

/-! ## containerregistry/credentials.go -/

/-- CredentialsResponse: the registry credentials triple. -/
structure CredentialsResponse where
  Username : String
  Password : String
  Email : String
  deriving DecidableEq, Repr

/-- credentialsService.Get: GET /v0/credentials through the shared helper,
no validation. -/
def credentialsGet (oracle : Except GoError CredentialsResponse) :
    CallResult (Option CredentialsResponse) :=
  let req : HttpRequest := ⟨"GET", "/v0/credentials", [], none⟩
  match oracle with
  | Except.error e => ⟨some req, none, some e⟩
  | Except.ok r => ⟨some req, some r, none⟩

/-- credentialsService.ResetPassword: POST /v0/credentials/password through
the shared helper, no validation. -/
def credentialsResetPassword (oracle : Except GoError CredentialsResponse) :
    CallResult (Option CredentialsResponse) :=
  let req : HttpRequest := ⟨"POST", "/v0/credentials/password", [], none⟩
  match oracle with
  | Except.error e => ⟨some req, none, some e⟩
  | Except.ok r => ⟨some req, some r, none⟩

/-! ## lbaas health-check service -/

/-- The Go constant health_checks = "health-checks". -/
def health_checks : String := "health-checks"

/-- Modelled from the spec: HealthCheckProtocol (defined elsewhere in the
lbaas package, not under src/): the protocol identifier of a health-check
probe, a string-valued enumeration. -/
abbrev HealthCheckProtocol := String

/-- Modelled from the spec: urlNetworkLoadBalancer (defined elsewhere in
the lbaas package, not under src/): builds the load-balancer-scoped /v1
path and appends each further segment after a slash, so the health-check
operations target /v1/.../health-checks and /v1/.../health-checks/{id}. -/
def urlNetworkLoadBalancer (loadBalancerID : String) (segments : List String) : String :=
  segments.foldl (fun acc seg => acc ++ "/" ++ seg) ("/v1/load-balancers/" ++ loadBalancerID)

/-- CreateNetworkHealthCheckRequest: the create payload; LoadBalancerID is
tagged json:"-" and used only for the path. -/
structure CreateNetworkHealthCheckRequest where
  LoadBalancerID : String
  Name : String
  Description : Option String
  Protocol : HealthCheckProtocol
  Path : Option String
  Port : Int
  HealthyStatusCode : Option Int
  IntervalSeconds : Option Int
  TimeoutSeconds : Option Int
  InitialDelaySeconds : Option Int
  HealthyThresholdCount : Option Int
  UnhealthyThresholdCount : Option Int
  deriving DecidableEq, Repr

/-- Go encoding/json serialization of CreateNetworkHealthCheckRequest:
LoadBalancerID is tagged json:"-" and skipped; name, protocol and port are
plain, the pointer fields omitempty. -/
def CreateNetworkHealthCheckRequest.toJson (r : CreateNetworkHealthCheckRequest) :
    List (String × Json) :=
  [("name", Json.str r.Name)] ++
  (match r.Description with | some d => [("description", Json.str d)] | none => []) ++
  [("protocol", Json.str r.Protocol)] ++
  (match r.Path with | some p => [("path", Json.str p)] | none => []) ++
  [("port", Json.num r.Port)] ++
  (match r.HealthyStatusCode with | some n => [("healthy_status_code", Json.num n)] | none => []) ++
  (match r.IntervalSeconds with | some n => [("interval_seconds", Json.num n)] | none => []) ++
  (match r.TimeoutSeconds with | some n => [("timeout_seconds", Json.num n)] | none => []) ++
  (match r.InitialDelaySeconds with | some n => [("initial_delay_seconds", Json.num n)] | none => []) ++
  (match r.HealthyThresholdCount with | some n => [("healthy_threshold_count", Json.num n)] | none => []) ++
  (match r.UnhealthyThresholdCount with | some n => [("unhealthy_threshold_count", Json.num n)] | none => [])

/-- DeleteNetworkHealthCheckRequest: both fields tagged json:"-", used only
for the path. -/
structure DeleteNetworkHealthCheckRequest where
  LoadBalancerID : String
  HealthCheckID : String
  deriving DecidableEq, Repr

/-- GetNetworkHealthCheckRequest: both fields tagged json:"-", used only
for the path. -/
structure GetNetworkHealthCheckRequest where
  LoadBalancerID : String
  HealthCheckID : String
  deriving DecidableEq, Repr

/-- ListNetworkHealthCheckRequest: all fields tagged json:"-"; the load
balancer id routes the path, the rest become query parameters. Sort_
renders the Sort field (Sort is a Lean keyword). -/
structure ListNetworkHealthCheckRequest where
  LoadBalancerID : String
  Offset : Option Int
  Limit : Option Int
  Sort_ : Option String
  deriving DecidableEq, Repr

/-- UpdateNetworkHealthCheckRequest: the update payload; LoadBalancerID and
HealthCheckID are tagged json:"-" and used only for the path. -/
structure UpdateNetworkHealthCheckRequest where
  LoadBalancerID : String
  HealthCheckID : String
  Protocol : HealthCheckProtocol
  Path : Option String
  Port : Int
  HealthyStatusCode : Option Int
  IntervalSeconds : Option Int
  TimeoutSeconds : Option Int
  InitialDelaySeconds : Option Int
  HealthyThresholdCount : Option Int
  UnhealthyThresholdCount : Option Int
  deriving DecidableEq, Repr

/-- Go encoding/json serialization of UpdateNetworkHealthCheckRequest:
LoadBalancerID and HealthCheckID are tagged json:"-" and skipped; protocol
and port are plain, the pointer fields omitempty. -/
def UpdateNetworkHealthCheckRequest.toJson (r : UpdateNetworkHealthCheckRequest) :
    List (String × Json) :=
  [("protocol", Json.str r.Protocol)] ++
  (match r.Path with | some p => [("path", Json.str p)] | none => []) ++
  [("port", Json.num r.Port)] ++
  (match r.HealthyStatusCode with | some n => [("healthy_status_code", Json.num n)] | none => []) ++
  (match r.IntervalSeconds with | some n => [("interval_seconds", Json.num n)] | none => []) ++
  (match r.TimeoutSeconds with | some n => [("timeout_seconds", Json.num n)] | none => []) ++
  (match r.InitialDelaySeconds with | some n => [("initial_delay_seconds", Json.num n)] | none => []) ++
  (match r.HealthyThresholdCount with | some n => [("healthy_threshold_count", Json.num n)] | none => []) ++
  (match r.UnhealthyThresholdCount with | some n => [("unhealthy_threshold_count", Json.num n)] | none => [])

/-- NetworkHealthCheckResponse: a health check as decoded from a response
body. -/
structure NetworkHealthCheckResponse where
  ID : String
  Name : String
  Description : Option String
  Protocol : HealthCheckProtocol
  Path : Option String
  Port : Int
  HealthyStatusCode : Int
  IntervalSeconds : Int
  TimeoutSeconds : Int
  InitialDelaySeconds : Int
  HealthyThresholdCount : Int
  UnhealthyThresholdCount : Int
  CreatedAt : String
  UpdatedAt : String
  deriving DecidableEq, Repr

/-- NetworkPaginatedHealthCheckResponse: paginated wrapper; Meta is an
untyped JSON value. -/
structure NetworkPaginatedHealthCheckResponse where
  Meta : Json
  Results : List NetworkHealthCheckResponse

/-- Modelled from the spec: helpers.QueryParams.AddReflect (helpers
package, not under src/): adds the named parameter only when the caller
supplies a non-nil value, rendering the integer as a decimal string. -/
def queryAddReflectInt (key : String) (v : Option Int) : List (String × String) :=
  match v with | some n => [(key, itoa n)] | none => []

/-- Modelled from the spec: helpers.QueryParams.Add (helpers package, not
under src/): adds the named string parameter only when the caller supplies
a non-nil value. -/
def queryAddString (key : String) (v : Option String) : List (String × String) :=
  match v with | some s => [(key, s)] | none => []

/-- The query block of networkHealthCheckService.List: _offset, _limit and
_sort in that order, each only when non-nil. -/
def healthCheckListQuery (req : ListNetworkHealthCheckRequest) : List (String × String) :=
  queryAddReflectInt "_offset" req.Offset ++
  queryAddReflectInt "_limit" req.Limit ++
  queryAddString "_sort" req.Sort_

/-- networkHealthCheckService.Create: POST to the load-balancer-scoped
health-checks path with the serialized create payload; no identifier
validation. -/
def healthCheckCreate (nr : Except GoError Unit)
    (oracle : Except GoError NetworkHealthCheckResponse)
    (req : CreateNetworkHealthCheckRequest) : CallResult (Option NetworkHealthCheckResponse) :=
  match nr with
  | Except.error e => ⟨none, none, some e⟩
  | Except.ok _ =>
    let httpReq : HttpRequest :=
      ⟨"POST", urlNetworkLoadBalancer req.LoadBalancerID [health_checks], [],
        some (Json.obj req.toJson)⟩
    match oracle with
    | Except.error e => ⟨some httpReq, none, some e⟩
    | Except.ok resp => ⟨some httpReq, some resp, none⟩

/-- networkHealthCheckService.Delete: DELETE to the health-check path,
returning the helper error directly; no identifier validation. -/
def healthCheckDelete (nr : Except GoError Unit) (oracle : Except GoError Unit)
    (req : DeleteNetworkHealthCheckRequest) : CallResult Unit :=
  match nr with
  | Except.error e => ⟨none, (), some e⟩
  | Except.ok _ =>
    let httpReq : HttpRequest :=
      ⟨"DELETE", urlNetworkLoadBalancer req.LoadBalancerID [health_checks, req.HealthCheckID],
        [], none⟩
    match oracle with
    | Except.error e => ⟨some httpReq, (), some e⟩
    | Except.ok _ => ⟨some httpReq, (), none⟩

/-- networkHealthCheckService.Get: GET to the health-check path; no
identifier validation. -/
def healthCheckGet (nr : Except GoError Unit)
    (oracle : Except GoError NetworkHealthCheckResponse)
    (req : GetNetworkHealthCheckRequest) : CallResult (Option NetworkHealthCheckResponse) :=
  match nr with
  | Except.error e => ⟨none, none, some e⟩
  | Except.ok _ =>
    let httpReq : HttpRequest :=
      ⟨"GET", urlNetworkLoadBalancer req.LoadBalancerID [health_checks, req.HealthCheckID],
        [], none⟩
    match oracle with
    | Except.error e => ⟨some httpReq, none, some e⟩
    | Except.ok resp => ⟨some httpReq, some resp, none⟩

/-- networkHealthCheckService.List: GET to the load-balancer-scoped
health-checks path with the query built by healthCheckListQuery; no
identifier validation. -/
def healthCheckList (nr : Except GoError Unit)
    (oracle : Except GoError NetworkPaginatedHealthCheckResponse)
    (req : ListNetworkHealthCheckRequest) : CallResult (List NetworkHealthCheckResponse) :=
  match nr with
  | Except.error e => ⟨none, [], some e⟩
  | Except.ok _ =>
    let httpReq : HttpRequest :=
      ⟨"GET", urlNetworkLoadBalancer req.LoadBalancerID [health_checks],
        healthCheckListQuery req, none⟩
    match oracle with
    | Except.error e => ⟨some httpReq, [], some e⟩
    | Except.ok resp => ⟨some httpReq, resp.Results, none⟩

/-- networkHealthCheckService.Update: PUT to the health-check path with the
serialized update payload, returning the helper error directly; no
identifier validation. -/
def healthCheckUpdate (nr : Except GoError Unit) (oracle : Except GoError Unit)
    (req : UpdateNetworkHealthCheckRequest) : CallResult Unit :=
  match nr with
  | Except.error e => ⟨none, (), some e⟩
  | Except.ok _ =>
    let httpReq : HttpRequest :=
      ⟨"PUT", urlNetworkLoadBalancer req.LoadBalancerID [health_checks, req.HealthCheckID],
        [], some (Json.obj req.toJson)⟩
    match oracle with
    | Except.error e => ⟨some httpReq, (), some e⟩
    | Except.ok _ => ⟨some httpReq, (), none⟩

/-! ## Sample values used to instantiate the theorems at concrete inputs -/

/-- A concrete NodePool response value. -/
def npWitness : NodePool :=
  ⟨"id", "n", ⟨⟨⟩, "img", 1, "dt"⟩, 1, none, none, [], none, none, none, none, none,
    ⟨⟩, "f", none, none⟩

/-- A concrete node-pool create payload. -/
def cnpWitness : CreateNodePoolRequest := ⟨"n", "f", 1, none, none, none, none, none⟩

/-- A concrete snapshot restore payload. -/
def rsWitness : RestoreSnapshotRequest := ⟨"n", ⟨none, none⟩, none, none, none, none⟩

/-- A concrete health-check create payload with an empty load-balancer id. -/
def hcCreateWitness : CreateNetworkHealthCheckRequest :=
  ⟨"", "n", none, "tcp", none, 80, none, none, none, none, none, none⟩

/-- A concrete health-check update payload with empty routing ids. -/
def hcUpdateWitness : UpdateNetworkHealthCheckRequest :=
  ⟨"", "", "tcp", none, 80, none, none, none, none, none, none⟩

/-! ## Claims -/

/-- C4: for NodePoolService, each of Get, Update, Delete and Nodes returns
a validation error naming the empty field when the cluster identifier or
the node-pool identifier is empty (cluster checked first), builds a request
only when both are non-empty, while List validates only the cluster
identifier. -/
theorem C4_nodePool_validation :
    ∀ (oNodes : Except GoError NodeList) (oGet oUpd : Except GoError NodePool)
      (oDel : Except GoError Unit) (oList : Except GoError NodePoolList)
      (clusterID nodePoolID : String) (opts : ListOptions) (patch : PatchNodePoolRequest),
      (clusterID = "" →
        nodePoolGet oGet clusterID nodePoolID =
          ⟨none, none, some (GoError.validation clusterIdField cannotBeEmpty)⟩ ∧
        nodePoolUpdate oUpd clusterID nodePoolID patch =
          ⟨none, none, some (GoError.validation clusterIdField cannotBeEmpty)⟩ ∧
        nodePoolDelete oDel clusterID nodePoolID =
          ⟨none, (), some (GoError.validation clusterIdField cannotBeEmpty)⟩ ∧
        nodePoolNodes oNodes clusterID nodePoolID =
          ⟨none, [], some (GoError.validation clusterIdField cannotBeEmpty)⟩ ∧
        nodePoolList oList clusterID opts =
          ⟨none, [], some (GoError.validation clusterIdField cannotBeEmpty)⟩) ∧
      (clusterID ≠ "" → nodePoolID = "" →
        nodePoolGet oGet clusterID nodePoolID =
          ⟨none, none, some (GoError.validation nodePoolIdField cannotBeEmpty)⟩ ∧
        nodePoolUpdate oUpd clusterID nodePoolID patch =
          ⟨none, none, some (GoError.validation nodePoolIdField cannotBeEmpty)⟩ ∧
        nodePoolDelete oDel clusterID nodePoolID =
          ⟨none, (), some (GoError.validation nodePoolIdField cannotBeEmpty)⟩ ∧
        nodePoolNodes oNodes clusterID nodePoolID =
          ⟨none, [], some (GoError.validation nodePoolIdField cannotBeEmpty)⟩) ∧
      (clusterID ≠ "" → nodePoolID ≠ "" →
        (nodePoolGet oGet clusterID nodePoolID).request.isSome ∧
        (nodePoolUpdate oUpd clusterID nodePoolID patch).request.isSome ∧
        (nodePoolDelete oDel clusterID nodePoolID).request.isSome ∧
        (nodePoolNodes oNodes clusterID nodePoolID).request.isSome) ∧
      (clusterID ≠ "" → (nodePoolList oList clusterID opts).request.isSome) := by
  intro oNodes oGet oUpd oDel oList clusterID nodePoolID opts patch
  refine ⟨?_, ?_, ?_, ?_⟩
  · intro h
    subst h
    refine ⟨?_, ?_, ?_, ?_, ?_⟩ <;>
      simp [nodePoolGet, nodePoolUpdate, nodePoolDelete, nodePoolNodes, nodePoolList]
  · intro h1 h2
    subst h2
    refine ⟨?_, ?_, ?_, ?_⟩ <;>
      simp [nodePoolGet, nodePoolUpdate, nodePoolDelete, nodePoolNodes, h1]
  · intro h1 h2
    refine ⟨?_, ?_, ?_, ?_⟩ <;>
      [cases oGet; cases oUpd; cases oDel; cases oNodes] <;>
      simp [nodePoolGet, nodePoolUpdate, nodePoolDelete, nodePoolNodes, h1, h2]
  · intro h1
    cases oList <;> simp [nodePoolList, h1]

/-- C4 witness: concrete instances of the validation matrix. -/
theorem C4_nodePool_validation_witness :
    nodePoolGet (Except.error (GoError.httpError "boom")) "" "np-1" =
      ⟨none, none, some (GoError.validation clusterIdField cannotBeEmpty)⟩ ∧
    nodePoolGet (Except.error (GoError.httpError "boom")) "cl-1" "" =
      ⟨none, none, some (GoError.validation nodePoolIdField cannotBeEmpty)⟩ ∧
    (nodePoolGet (Except.error (GoError.httpError "boom")) "cl-1" "np-1").request.isSome ∧
    (nodePoolList (Except.error (GoError.httpError "boom")) "cl-1"
      ⟨none, none, none, []⟩).request.isSome := by
  have h := C4_nodePool_validation (Except.error (GoError.httpError "boom"))
    (Except.error (GoError.httpError "boom")) (Except.error (GoError.httpError "boom"))
    (Except.error (GoError.httpError "boom")) (Except.error (GoError.httpError "boom"))
  exact ⟨((h "" "np-1" ⟨none, none, none, []⟩ ⟨none, none⟩).1 rfl).1,
         ((h "cl-1" "" ⟨none, none, none, []⟩ ⟨none, none⟩).2.1 (by decide) rfl).1,
         ((h "cl-1" "np-1" ⟨none, none, none, []⟩ ⟨none, none⟩).2.2.1
            (by decide) (by decide)).1,
         (h "cl-1" "np-1" ⟨none, none, none, []⟩ ⟨none, none⟩).2.2.2 (by decide)⟩

/-- C1 counterexample: snapshotService.Delete called with the empty
snapshot identifier returns no validation error and builds the request
DELETE /v1/snapshots/ — refuting the claim that every identifier-taking
operation validates emptiness before issuing a request. -/
theorem C1_counterexample :
    (snapshotDelete (Except.ok ()) (Except.ok ()) "").error = none ∧
    (snapshotDelete (Except.ok ()) (Except.ok ()) "").request =
      some ⟨"DELETE", "/v1/snapshots/", [], none⟩ := by
  constructor <;> rfl

/-- C1 (amended): only the node-pool service validates its path
identifiers: each of its operations returns a validation error naming the
empty field and builds no request when the cluster identifier (or, where
taken, the node-pool identifier) is empty; the snapshot and health-check
operations perform no empty-identifier validation — whenever request
construction succeeds they build the request with the identifier (empty or
not) interpolated into the path, and report no error when the shared
helper succeeds. -/
theorem C1_amended_validation :
    ∀ (oNodes : Except GoError NodeList) (oGet oUpd oCre : Except GoError NodePool)
      (oDel : Except GoError Unit) (oList : Except GoError NodePoolList)
      (oSnap : Except GoError Snapshot) (oU : Except GoError Unit)
      (oId : Except GoError IdResponse) (oHC : Except GoError NetworkHealthCheckResponse)
      (oPag : Except GoError NetworkPaginatedHealthCheckResponse)
      (clusterID nodePoolID id newName : String) (opts : ListOptions)
      (creq : CreateNodePoolRequest) (patch : PatchNodePoolRequest)
      (expand : List String) (rreq : RestoreSnapshotRequest) (creq2 : CopySnapshotRequest)
      (hcC : CreateNetworkHealthCheckRequest) (hcU : UpdateNetworkHealthCheckRequest)
      (hcD : DeleteNetworkHealthCheckRequest) (hcG : GetNetworkHealthCheckRequest)
      (hcL : ListNetworkHealthCheckRequest),
      (clusterID = "" →
        (nodePoolGet oGet clusterID nodePoolID).request = none ∧
        (nodePoolGet oGet clusterID nodePoolID).error =
          some (GoError.validation clusterIdField cannotBeEmpty) ∧
        (nodePoolUpdate oUpd clusterID nodePoolID patch).request = none ∧
        (nodePoolDelete oDel clusterID nodePoolID).request = none ∧
        (nodePoolNodes oNodes clusterID nodePoolID).request = none ∧
        (nodePoolList oList clusterID opts).request = none ∧
        (nodePoolCreate oCre clusterID creq).request = none ∧
        (nodePoolCreate oCre clusterID creq).error =
          some (GoError.validation clusterIdField cannotBeEmpty)) ∧
      (clusterID ≠ "" → nodePoolID = "" →
        (nodePoolGet oGet clusterID nodePoolID).request = none ∧
        (nodePoolGet oGet clusterID nodePoolID).error =
          some (GoError.validation nodePoolIdField cannotBeEmpty)) ∧
      ((snapshotGet (Except.ok ()) oSnap id expand).request =
        some ⟨"GET", "/v1/snapshots/" ++ id, snapshotGetQuery expand, none⟩) ∧
      ((snapshotDelete (Except.ok ()) (Except.ok ()) id).error = none) ∧
      ((snapshotDelete (Except.ok ()) oU id).request =
        some ⟨"DELETE", "/v1/snapshots/" ++ id, [], none⟩) ∧
      ((snapshotRename (Except.ok ()) oU id newName).request =
        some ⟨"PATCH", "/v1/snapshots/" ++ id ++ "/rename", [],
          some (Json.obj (UpdateNameRequest.toJson ⟨newName⟩))⟩) ∧
      ((snapshotRestore (Except.ok ()) oId id rreq).request =
        some ⟨"POST", "/v1/snapshots/" ++ id, [], some (Json.obj rreq.toJson)⟩) ∧
      ((snapshotCopy (Except.ok ()) oU id creq2).request =
        some ⟨"POST", "/v1/snapshots/" ++ id ++ "/copy", [], some (Json.obj creq2.toJson)⟩) ∧
      ((snapshotCopy (Except.ok ()) (Except.ok ()) id creq2).error = none) ∧
      ((healthCheckCreate (Except.ok ()) oHC hcC).request =
        some ⟨"POST", urlNetworkLoadBalancer hcC.LoadBalancerID [health_checks], [],
          some (Json.obj hcC.toJson)⟩) ∧
      ((healthCheckUpdate (Except.ok ()) oU hcU).request =
        some ⟨"PUT", urlNetworkLoadBalancer hcU.LoadBalancerID [health_checks, hcU.HealthCheckID],
          [], some (Json.obj hcU.toJson)⟩) ∧
      ((healthCheckUpdate (Except.ok ()) (Except.ok ()) hcU).error = none) ∧
      ((healthCheckDelete (Except.ok ()) oU hcD).request =
        some ⟨"DELETE", urlNetworkLoadBalancer hcD.LoadBalancerID [health_checks, hcD.HealthCheckID],
          [], none⟩) ∧
      ((healthCheckGet (Except.ok ()) oHC hcG).request =
        some ⟨"GET", urlNetworkLoadBalancer hcG.LoadBalancerID [health_checks, hcG.HealthCheckID],
          [], none⟩) ∧
      ((healthCheckList (Except.ok ()) oPag hcL).request =
        some ⟨"GET", urlNetworkLoadBalancer hcL.LoadBalancerID [health_checks],
          healthCheckListQuery hcL, none⟩) := by
  intro oNodes oGet oUpd oCre oDel oList oSnap oU oId oHC oPag
    clusterID nodePoolID id newName opts creq patch expand rreq creq2 hcC hcU hcD hcG hcL
  refine ⟨?_, ?_, ?_, ?_, ?_, ?_, ?_, ?_, ?_, ?_, ?_, ?_, ?_, ?_, ?_⟩
  · intro h
    subst h
    refine ⟨?_, ?_, ?_, ?_, ?_, ?_, ?_, ?_⟩ <;>
      simp [nodePoolGet, nodePoolUpdate, nodePoolDelete, nodePoolNodes, nodePoolList,
        nodePoolCreate]
  · intro h1 h2
    subst h2
    exact ⟨by simp [nodePoolGet, h1], by simp [nodePoolGet, h1]⟩
  · cases oSnap <;> simp [snapshotGet]
  · rfl
  · cases oU <;> simp [snapshotDelete]
  · cases oU <;> simp [snapshotRename]
  · cases oId <;> simp [snapshotRestore]
  · cases oU <;> simp [snapshotCopy]
  · rfl
  · cases oHC <;> simp [healthCheckCreate]
  · cases oU <;> simp [healthCheckUpdate]
  · rfl
  · cases oU <;> simp [healthCheckDelete]
  · cases oHC <;> simp [healthCheckGet]
  · cases oPag <;> simp [healthCheckList]

/-- C1 witness: at the empty identifiers, the node-pool service rejects
before building a request while the snapshot and health-check services
build their requests with the empty identifier in the path. -/
theorem C1_amended_validation_witness :
    (nodePoolGet (Except.ok npWitness) "" "np-1").request = none ∧
    (snapshotDelete (Except.ok ()) (Except.ok ()) "").request =
      some ⟨"DELETE", "/v1/snapshots/", [], none⟩ ∧
    (healthCheckDelete (Except.ok ()) (Except.ok ())
      ⟨"", ""⟩).request =
      some ⟨"DELETE", urlNetworkLoadBalancer "" [health_checks, ""], [], none⟩ := by
  have h := C1_amended_validation (Except.ok ⟨[]⟩) (Except.ok npWitness)
    (Except.ok npWitness) (Except.ok npWitness) (Except.ok ()) (Except.ok ⟨[]⟩)
    (Except.error (GoError.httpError "e")) (Except.ok ()) (Except.ok ⟨""⟩)
    (Except.error (GoError.httpError "e")) (Except.error (GoError.httpError "e"))
    "" "np-1" "" "n" ⟨none, none, none, []⟩ cnpWitness ⟨none, none⟩ []
    rsWitness ⟨"r"⟩ hcCreateWitness hcUpdateWitness ⟨"", ""⟩ ⟨"lb", "hc"⟩
    ⟨"lb", none, none, none⟩
  exact ⟨((h.1 rfl).1), h.2.2.2.2.1, by
    have h2 := C1_amended_validation (Except.ok ⟨[]⟩) (Except.ok npWitness)
      (Except.ok npWitness) (Except.ok npWitness) (Except.ok ()) (Except.ok ⟨[]⟩)
      (Except.error (GoError.httpError "e")) (Except.ok ()) (Except.ok ⟨""⟩)
      (Except.error (GoError.httpError "e")) (Except.error (GoError.httpError "e"))
      "" "np-1" "" "n" ⟨none, none, none, []⟩ cnpWitness ⟨none, none⟩ []
      rsWitness ⟨"r"⟩ hcCreateWitness hcUpdateWitness ⟨"", ""⟩ ⟨"lb", "hc"⟩
      ⟨"lb", none, none, none⟩
    exact h2.2.2.2.2.2.2.2.2.2.2.2.2.1⟩

/-- C5: nodePoolService.List targets /v1alpha0/clusters/{clusterID}/node-pools
(hyphenated, v1alpha0) while Get, Create, Update and Delete build their
paths under /v0/clusters/{clusterID}/node_pools (underscored, v0); with
Limit 10 the List example issues GET /v1alpha0/clusters/cl-1/node-pools
with query _limit=10. -/
theorem C5_nodePool_path_versions :
    ∀ (oList : Except GoError NodePoolList) (oGet oUpd oCre : Except GoError NodePool)
      (oDel : Except GoError Unit) (cid npid : String) (opts : ListOptions)
      (creq : CreateNodePoolRequest) (preq : PatchNodePoolRequest),
      (cid ≠ "" →
        (nodePoolList oList cid opts).request =
          some ⟨"GET", "/v1alpha0/clusters/" ++ cid ++ "/node-pools",
            nodePoolListQuery opts, none⟩) ∧
      (cid ≠ "" → npid ≠ "" →
        (nodePoolGet oGet cid npid).request =
          some ⟨"GET", "/v0/clusters/" ++ cid ++ "/node_pools/" ++ npid, [], none⟩ ∧
        (nodePoolUpdate oUpd cid npid preq).request =
          some ⟨"PATCH", "/v0/clusters/" ++ cid ++ "/node_pools/" ++ npid, [],
            some (Json.obj preq.toJson)⟩ ∧
        (nodePoolDelete oDel cid npid).request =
          some ⟨"DELETE", "/v0/clusters/" ++ cid ++ "/node_pools/" ++ npid, [], none⟩) ∧
      (cid ≠ "" →
        (nodePoolCreate oCre cid creq).request =
          some ⟨"POST", "/v0/clusters/" ++ cid ++ "/node_pools", [],
            some (Json.obj creq.toJson)⟩) ∧
      (nodePoolList (Except.ok ⟨[]⟩) "cl-1" ⟨some 10, none, none, []⟩).request =
        some ⟨"GET", "/v1alpha0/clusters/cl-1/node-pools", [("_limit", "10")], none⟩ := by
  intro oList oGet oUpd oCre oDel cid npid opts creq preq
  refine ⟨?_, ?_, ?_, ?_⟩
  · intro h
    cases oList <;> simp [nodePoolList, h]
  · intro h1 h2
    refine ⟨?_, ?_, ?_⟩ <;>
      [cases oGet; cases oUpd; cases oDel] <;>
      simp [nodePoolGet, nodePoolUpdate, nodePoolDelete, clusterNodepoolURL, h1, h2]
  · intro h
    cases oCre <;> simp [nodePoolCreate, h]
  · rfl

/-- C5 witness: the quantified parts instantiated at cl-1 / np-1. -/
theorem C5_nodePool_path_versions_witness :
    (nodePoolList (Except.ok ⟨[]⟩) "cl-1" ⟨some 10, none, none, []⟩).request =
      some ⟨"GET", "/v1alpha0/clusters/cl-1/node-pools", [("_limit", "10")], none⟩ ∧
    (nodePoolGet (Except.ok npWitness) "cl-1" "np-1").request =
      some ⟨"GET", "/v0/clusters/cl-1/node_pools/np-1", [], none⟩ :=
  ⟨(C5_nodePool_path_versions (Except.ok ⟨[]⟩) (Except.ok npWitness) (Except.ok npWitness)
      (Except.ok npWitness) (Except.ok ()) "cl-1" "np-1" ⟨some 10, none, none, []⟩
      cnpWitness ⟨none, none⟩).2.2.2,
   ((C5_nodePool_path_versions (Except.ok ⟨[]⟩) (Except.ok npWitness) (Except.ok npWitness)
      (Except.ok npWitness) (Except.ok ()) "cl-1" "np-1" ⟨some 10, none, none, []⟩
      cnpWitness ⟨none, none⟩).2.1 (by decide) (by decide)).1⟩

/-- C7: nodePoolService.Update issues a PATCH whose body is the serialized
PatchNodePoolRequest: its keys range over replicas and auto_scale only,
each present exactly when the corresponding pointer is non-nil, so no other
node-pool field is ever transmitted. -/
theorem C7_update_patch_body :
    ∀ (o : Except GoError NodePool) (cid npid : String) (r : PatchNodePoolRequest),
      (cid ≠ "" → npid ≠ "" →
        (nodePoolUpdate o cid npid r).request =
          some ⟨"PATCH", clusterNodepoolURL cid npid, [], some (Json.obj r.toJson)⟩) ∧
      (∀ k v, (k, v) ∈ r.toJson → k = "replicas" ∨ k = "auto_scale") ∧
      (∀ n, r.Replicas = some n → ("replicas", Json.num n) ∈ r.toJson) ∧
      (r.Replicas = none → ∀ v, ("replicas", v) ∉ r.toJson) ∧
      (∀ a, r.AutoScale = some a → ("auto_scale", Json.obj a.toJson) ∈ r.toJson) ∧
      (r.AutoScale = none → ∀ v, ("auto_scale", v) ∉ r.toJson) := by
  intro o cid npid r
  obtain ⟨rep, asc⟩ := r
  refine ⟨?_, ?_, ?_, ?_, ?_, ?_⟩
  · intro h1 h2
    cases o <;> simp [nodePoolUpdate, h1, h2]
  · intro k v hm
    cases rep <;> cases asc <;>
      simp [PatchNodePoolRequest.toJson] at hm <;> tauto
  · intro n hn
    cases asc <;> simp_all [PatchNodePoolRequest.toJson]
  · intro hn v
    cases asc <;> simp_all [PatchNodePoolRequest.toJson]
  · intro a ha
    cases rep <;> simp_all [PatchNodePoolRequest.toJson]
  · intro ha v
    cases rep <;> simp_all [PatchNodePoolRequest.toJson]

/-- C7 witness: the empty patch serializes to an empty body and a patch
with only replicas set carries exactly the replicas key. -/
theorem C7_update_patch_body_witness :
    (nodePoolUpdate (Except.ok npWitness) "cl-1" "np-1" ⟨some 3, none⟩).request =
      some ⟨"PATCH", clusterNodepoolURL "cl-1" "np-1", [],
        some (Json.obj (PatchNodePoolRequest.toJson ⟨some 3, none⟩))⟩ ∧
    ("replicas", Json.num 3) ∈ (PatchNodePoolRequest.toJson ⟨some 3, none⟩) ∧
    (∀ v, ("auto_scale", v) ∉ (PatchNodePoolRequest.toJson ⟨some 3, none⟩)) := by
  have h := C7_update_patch_body (Except.ok npWitness) "cl-1" "np-1" ⟨some 3, none⟩
  exact ⟨h.1 (by decide) (by decide), h.2.2.1 3 rfl, h.2.2.2.2.2 rfl⟩

/-- C2: snapshotService.Get and snapshotService.List add a single expand
query parameter whose value is the comma-join of a non-empty expand list
and add none for an empty list; in particular Get at snap-1 with
image,machine-type issues GET /v1/snapshots/snap-1 with exactly
expand=image,machine-type. -/
theorem C2_snapshot_expand :
    ∀ (oG : Except GoError Snapshot) (oL : Except GoError ListSnapshotsResponse)
      (id : String) (expand : List String) (opts : ComputeListOptions),
      (expand ≠ [] →
        (snapshotGet (Except.ok ()) oG id expand).request =
          some ⟨"GET", "/v1/snapshots/" ++ id,
            [("expand", String.intercalate "," expand)], none⟩) ∧
      (expand = [] →
        (snapshotGet (Except.ok ()) oG id expand).request =
          some ⟨"GET", "/v1/snapshots/" ++ id, [], none⟩) ∧
      ((snapshotList (Except.ok ()) oL opts).request =
        some ⟨"GET", "/v1/snapshots", snapshotListQuery opts, none⟩) ∧
      (opts.Expand ≠ [] →
        (snapshotListQuery opts).filter (fun p => p.1 == "expand") =
          [("expand", String.intercalate "," opts.Expand)]) ∧
      (opts.Expand = [] →
        (snapshotListQuery opts).filter (fun p => p.1 == "expand") = []) ∧
      (snapshotGet (Except.ok ()) oG "snap-1" ["image", "machine-type"]).request =
        some ⟨"GET", "/v1/snapshots/snap-1", [("expand", "image,machine-type")], none⟩ := by
  intro oG oL id expand opts
  obtain ⟨lim, off, srt, exp⟩ := opts
  refine ⟨?_, ?_, ?_, ?_, ?_, ?_⟩
  · intro h
    cases oG <;>
      simp [snapshotGet, snapshotGetQuery, List.isEmpty_iff, h]
  · intro h
    subst h
    cases oG <;> simp [snapshotGet, snapshotGetQuery]
  · cases oL <;> simp [snapshotList]
  · intro h
    cases lim <;> cases off <;> cases srt <;>
      simp_all [snapshotListQuery, List.isEmpty_iff, List.filter_append]
  · intro h
    subst h
    cases lim <;> cases off <;> cases srt <;>
      simp [snapshotListQuery, List.filter_append]
  · cases oG <;> simp [snapshotGet, snapshotGetQuery, String.intercalate] <;> decide

/-- C2 witness: the quantified parts instantiated at snap-1 with the
non-empty and the empty expand list. -/
theorem C2_snapshot_expand_witness :
    (snapshotGet (Except.ok ()) (Except.error (GoError.httpError "e")) "snap-1"
      ["image", "machine-type"]).request =
      some ⟨"GET", "/v1/snapshots/snap-1", [("expand", "image,machine-type")], none⟩ ∧
    (snapshotGet (Except.ok ()) (Except.error (GoError.httpError "e")) "snap-1" []).request =
      some ⟨"GET", "/v1/snapshots/snap-1", [], none⟩ :=
  ⟨(C2_snapshot_expand (Except.error (GoError.httpError "e"))
      (Except.error (GoError.httpError "e")) "snap-1" ["image", "machine-type"]
      ⟨none, none, none, []⟩).2.2.2.2.2,
   (C2_snapshot_expand (Except.error (GoError.httpError "e"))
      (Except.error (GoError.httpError "e")) "snap-1" []
      ⟨none, none, none, []⟩).2.1 rfl⟩

/-- C3 counterexample: nodePoolService.List with the Expand option set to
a non-empty list issues a request whose query carries no expand parameter
at all — refuting the claim that every set option of every List operation
maps to its documented query parameter. -/
theorem C3_counterexample :
    (nodePoolList (Except.ok ⟨[]⟩) "cl-1" ⟨none, none, none, ["flavor"]⟩).request =
      some ⟨"GET", "/v1alpha0/clusters/cl-1/node-pools", [], none⟩ := by
  simp [nodePoolList, nodePoolListQuery]

/-- Characterization of the node-pool List query block: _limit, _offset and
_sort appear exactly when set (integers rendered in decimal), the Expand
field is ignored, and with nothing set the query is empty. -/
theorem nodePoolListQuery_spec (opts : ListOptions) :
    (∀ n, opts.Limit = some n → ("_limit", itoa n) ∈ nodePoolListQuery opts) ∧
    (opts.Limit = none → ∀ v, ("_limit", v) ∉ nodePoolListQuery opts) ∧
    (∀ n, opts.Offset = some n → ("_offset", itoa n) ∈ nodePoolListQuery opts) ∧
    (opts.Offset = none → ∀ v, ("_offset", v) ∉ nodePoolListQuery opts) ∧
    (∀ s, opts.Sort_ = some s → ("_sort", s) ∈ nodePoolListQuery opts) ∧
    (opts.Sort_ = none → ∀ v, ("_sort", v) ∉ nodePoolListQuery opts) ∧
    (∀ v, ("expand", v) ∉ nodePoolListQuery opts) ∧
    (∀ e, nodePoolListQuery ⟨none, none, none, e⟩ = []) := by
  obtain ⟨l, o, s, e⟩ := opts
  cases l <;> cases o <;> cases s <;>
    refine ⟨?_, ?_, ?_, ?_, ?_, ?_, ?_, ?_⟩ <;>
      simp_all [nodePoolListQuery]

/-- Characterization of the snapshot List query block: _limit, _offset and
_sort appear exactly when set (integers rendered in decimal), expand is the
comma-join exactly when the list is non-empty, and with nothing set the
query is empty. -/
theorem snapshotListQuery_spec (opts : ComputeListOptions) :
    (∀ n, opts.Limit = some n → ("_limit", itoa n) ∈ snapshotListQuery opts) ∧
    (opts.Limit = none → ∀ v, ("_limit", v) ∉ snapshotListQuery opts) ∧
    (∀ n, opts.Offset = some n → ("_offset", itoa n) ∈ snapshotListQuery opts) ∧
    (opts.Offset = none → ∀ v, ("_offset", v) ∉ snapshotListQuery opts) ∧
    (∀ s, opts.Sort_ = some s → ("_sort", s) ∈ snapshotListQuery opts) ∧
    (opts.Sort_ = none → ∀ v, ("_sort", v) ∉ snapshotListQuery opts) ∧
    (opts.Expand ≠ [] →
      ("expand", String.intercalate "," opts.Expand) ∈ snapshotListQuery opts) ∧
    (opts.Expand = [] → ∀ v, ("expand", v) ∉ snapshotListQuery opts) ∧
    (snapshotListQuery ⟨none, none, none, []⟩ = []) := by
  obtain ⟨l, o, s, e⟩ := opts
  cases l <;> cases o <;> cases s <;>
    refine ⟨?_, ?_, ?_, ?_, ?_, ?_, ?_, ?_, ?_⟩ <;>
      simp_all [snapshotListQuery, List.isEmpty_iff]

/-- Characterization of the health-check List query block: _offset, _limit
and _sort appear exactly when set (integers rendered in decimal), and with
nothing set the query is empty. -/
theorem healthCheckListQuery_spec (req : ListNetworkHealthCheckRequest) :
    (∀ n, req.Offset = some n → ("_offset", itoa n) ∈ healthCheckListQuery req) ∧
    (req.Offset = none → ∀ v, ("_offset", v) ∉ healthCheckListQuery req) ∧
    (∀ n, req.Limit = some n → ("_limit", itoa n) ∈ healthCheckListQuery req) ∧
    (req.Limit = none → ∀ v, ("_limit", v) ∉ healthCheckListQuery req) ∧
    (∀ s, req.Sort_ = some s → ("_sort", s) ∈ healthCheckListQuery req) ∧
    (req.Sort_ = none → ∀ v, ("_sort", v) ∉ healthCheckListQuery req) ∧
    (∀ lb, healthCheckListQuery ⟨lb, none, none, none⟩ = []) := by
  obtain ⟨lb, o, l, s⟩ := req
  cases o <;> cases l <;> cases s <;>
    refine ⟨?_, ?_, ?_, ?_, ?_, ?_, ?_⟩ <;>
      simp_all [healthCheckListQuery, queryAddReflectInt, queryAddString]

/-- C3 (amended): for the three List operations, a nil option contributes
no query parameter and a set option contributes its documented parameter
with integers rendered in decimal — except that node-pool List ignores the
Expand field of its options entirely (no expand parameter is ever sent);
snapshot List handles all four options and health-check List its three;
with no options set the query string is empty; and each List request
carries exactly its query block. -/
theorem C3_amended_list_params :
    ∀ (optsK : ListOptions) (optsC : ComputeListOptions)
      (reqL : ListNetworkHealthCheckRequest) (cid : String)
      (oNP : Except GoError NodePoolList) (oS : Except GoError ListSnapshotsResponse)
      (oH : Except GoError NetworkPaginatedHealthCheckResponse),
      ((∀ n, optsK.Limit = some n → ("_limit", itoa n) ∈ nodePoolListQuery optsK) ∧
       (optsK.Limit = none → ∀ v, ("_limit", v) ∉ nodePoolListQuery optsK) ∧
       (∀ n, optsK.Offset = some n → ("_offset", itoa n) ∈ nodePoolListQuery optsK) ∧
       (optsK.Offset = none → ∀ v, ("_offset", v) ∉ nodePoolListQuery optsK) ∧
       (∀ s, optsK.Sort_ = some s → ("_sort", s) ∈ nodePoolListQuery optsK) ∧
       (optsK.Sort_ = none → ∀ v, ("_sort", v) ∉ nodePoolListQuery optsK) ∧
       (∀ v, ("expand", v) ∉ nodePoolListQuery optsK) ∧
       (∀ e, nodePoolListQuery ⟨none, none, none, e⟩ = [])) ∧
      ((∀ n, optsC.Limit = some n → ("_limit", itoa n) ∈ snapshotListQuery optsC) ∧
       (optsC.Limit = none → ∀ v, ("_limit", v) ∉ snapshotListQuery optsC) ∧
       (∀ n, optsC.Offset = some n → ("_offset", itoa n) ∈ snapshotListQuery optsC) ∧
       (optsC.Offset = none → ∀ v, ("_offset", v) ∉ snapshotListQuery optsC) ∧
       (∀ s, optsC.Sort_ = some s → ("_sort", s) ∈ snapshotListQuery optsC) ∧
       (optsC.Sort_ = none → ∀ v, ("_sort", v) ∉ snapshotListQuery optsC) ∧
       (optsC.Expand ≠ [] →
         ("expand", String.intercalate "," optsC.Expand) ∈ snapshotListQuery optsC) ∧
       (optsC.Expand = [] → ∀ v, ("expand", v) ∉ snapshotListQuery optsC) ∧
       (snapshotListQuery ⟨none, none, none, []⟩ = [])) ∧
      ((∀ n, reqL.Offset = some n → ("_offset", itoa n) ∈ healthCheckListQuery reqL) ∧
       (reqL.Offset = none → ∀ v, ("_offset", v) ∉ healthCheckListQuery reqL) ∧
       (∀ n, reqL.Limit = some n → ("_limit", itoa n) ∈ healthCheckListQuery reqL) ∧
       (reqL.Limit = none → ∀ v, ("_limit", v) ∉ healthCheckListQuery reqL) ∧
       (∀ s, reqL.Sort_ = some s → ("_sort", s) ∈ healthCheckListQuery reqL) ∧
       (reqL.Sort_ = none → ∀ v, ("_sort", v) ∉ healthCheckListQuery reqL) ∧
       (∀ lb, healthCheckListQuery ⟨lb, none, none, none⟩ = [])) ∧
      (cid ≠ "" →
        (nodePoolList oNP cid optsK).request =
          some ⟨"GET", "/v1alpha0/clusters/" ++ cid ++ "/node-pools",
            nodePoolListQuery optsK, none⟩) ∧
      ((snapshotList (Except.ok ()) oS optsC).request =
        some ⟨"GET", "/v1/snapshots", snapshotListQuery optsC, none⟩) ∧
      ((healthCheckList (Except.ok ()) oH reqL).request =
        some ⟨"GET", urlNetworkLoadBalancer reqL.LoadBalancerID [health_checks],
          healthCheckListQuery reqL, none⟩) := by
  intro optsK optsC reqL cid oNP oS oH
  refine ⟨nodePoolListQuery_spec optsK, snapshotListQuery_spec optsC,
    healthCheckListQuery_spec reqL, ?_, ?_, ?_⟩
  · intro h
    cases oNP <;> simp [nodePoolList, h]
  · cases oS <;> simp [snapshotList]
  · cases oH <;> simp [healthCheckList]

/-- C3 witness: concrete instances — limit 10 appears in decimal, nothing
appears when nothing is set, node-pool expand is never sent. -/
theorem C3_amended_list_params_witness :
    ("_limit", itoa 10) ∈ nodePoolListQuery ⟨some 10, none, none, []⟩ ∧
    nodePoolListQuery ⟨none, none, none, ["flavor"]⟩ = [] ∧
    (("expand", "flavor") ∉ nodePoolListQuery ⟨none, none, none, ["flavor"]⟩) ∧
    snapshotListQuery ⟨none, none, none, []⟩ = [] ∧
    healthCheckListQuery ⟨"lb", none, none, none⟩ = [] := by
  have h1 := C3_amended_list_params ⟨some 10, none, none, []⟩ ⟨none, none, none, []⟩
    ⟨"lb", none, none, none⟩ "cl-1" (Except.ok ⟨[]⟩) (Except.ok ⟨[]⟩)
    (Except.ok ⟨Json.null, []⟩)
  have h2 := C3_amended_list_params ⟨none, none, none, ["flavor"]⟩ ⟨none, none, none, []⟩
    ⟨"lb", none, none, none⟩ "cl-1" (Except.ok ⟨[]⟩) (Except.ok ⟨[]⟩)
    (Except.ok ⟨Json.null, []⟩)
  exact ⟨h1.1.1 10 rfl, h2.1.2.2.2.2.2.2.2 ["flavor"], h2.1.2.2.2.2.2.2.1 "flavor",
    h1.2.1.2.2.2.2.2.2.2.2, h1.2.2.1.2.2.2.2.2.2 "lb"⟩

/-- C6: networkHealthCheckService.Update issues PUT (full replacement) and,
like Delete, returns only an error: any error reported by the shared
execute helper is returned unchanged, any request-construction error is
returned unchanged, and the return is nil exactly when construction and
execution both succeed. -/
theorem C6_healthcheck_update_delete_errors :
    ∀ (dU dD : Except GoError Unit) (u : UpdateNetworkHealthCheckRequest)
      (d : DeleteNetworkHealthCheckRequest) (e : GoError),
      ((healthCheckUpdate (Except.ok ()) dU u).request =
        some ⟨"PUT", urlNetworkLoadBalancer u.LoadBalancerID [health_checks, u.HealthCheckID],
          [], some (Json.obj u.toJson)⟩) ∧
      (dU = Except.error e → (healthCheckUpdate (Except.ok ()) dU u).error = some e) ∧
      ((healthCheckUpdate (Except.error e) dU u).error = some e) ∧
      ((healthCheckUpdate (Except.ok ()) dU u).error = none ↔ dU = Except.ok ()) ∧
      (dD = Except.error e → (healthCheckDelete (Except.ok ()) dD d).error = some e) ∧
      ((healthCheckDelete (Except.error e) dD d).error = some e) ∧
      ((healthCheckDelete (Except.ok ()) dD d).error = none ↔ dD = Except.ok ()) := by
  intro dU dD u d e
  refine ⟨?_, ?_, ?_, ?_, ?_, ?_, ?_⟩
  · cases dU <;> simp [healthCheckUpdate]
  · intro h
    subst h
    simp [healthCheckUpdate]
  · simp [healthCheckUpdate]
  · cases dU <;> simp [healthCheckUpdate]
  · intro h
    subst h
    simp [healthCheckDelete]
  · simp [healthCheckDelete]
  · cases dD <;> simp [healthCheckDelete]

/-- C6 witness: a concrete helper failure is propagated unchanged by
Update and Delete, and success yields nil. -/
theorem C6_healthcheck_update_delete_errors_witness :
    (healthCheckUpdate (Except.ok ()) (Except.error (GoError.httpError "boom"))
      hcUpdateWitness).error = some (GoError.httpError "boom") ∧
    (healthCheckDelete (Except.ok ()) (Except.error (GoError.httpError "boom"))
      ⟨"lb-1", "hc-1"⟩).error = some (GoError.httpError "boom") ∧
    (healthCheckUpdate (Except.ok ()) (Except.ok ()) hcUpdateWitness).error = none ∧
    (healthCheckUpdate (Except.ok ()) (Except.ok ()) hcUpdateWitness).request =
      some ⟨"PUT", urlNetworkLoadBalancer "" [health_checks, ""], [],
        some (Json.obj hcUpdateWitness.toJson)⟩ := by
  have h1 := C6_healthcheck_update_delete_errors
    (Except.error (GoError.httpError "boom")) (Except.error (GoError.httpError "boom"))
    hcUpdateWitness ⟨"lb-1", "hc-1"⟩ (GoError.httpError "boom")
  have h2 := C6_healthcheck_update_delete_errors (Except.ok ()) (Except.ok ())
    hcUpdateWitness ⟨"lb-1", "hc-1"⟩ (GoError.httpError "boom")
  exact ⟨h1.2.1 rfl, h1.2.2.2.2.1 rfl, h2.2.2.2.1.mpr rfl, h2.1⟩

/-- C8: snapshotService.Create returns exactly the id decoded from the
response of POST /v1/snapshots and snapshotService.Restore exactly the id
decoded from the response of POST /v1/snapshots/{id}; on any
request-construction or transport error both return the empty string
together with that error. -/
theorem C8_snapshot_create_restore_id :
    ∀ (dC dR : Except GoError IdResponse) (c : CreateSnapshotRequest)
      (r : RestoreSnapshotRequest) (id : String) (e : GoError) (res : IdResponse),
      (dC = Except.ok res → snapshotCreate (Except.ok ()) dC c =
        ⟨some ⟨"POST", "/v1/snapshots", [], some (Json.obj c.toJson)⟩, res.ID, none⟩) ∧
      (dC = Except.error e → (snapshotCreate (Except.ok ()) dC c).value = "" ∧
        (snapshotCreate (Except.ok ()) dC c).error = some e) ∧
      (snapshotCreate (Except.error e) dC c = ⟨none, "", some e⟩) ∧
      (dR = Except.ok res → snapshotRestore (Except.ok ()) dR id r =
        ⟨some ⟨"POST", "/v1/snapshots/" ++ id, [], some (Json.obj r.toJson)⟩, res.ID, none⟩) ∧
      (dR = Except.error e → (snapshotRestore (Except.ok ()) dR id r).value = "" ∧
        (snapshotRestore (Except.ok ()) dR id r).error = some e) ∧
      (snapshotRestore (Except.error e) dR id r = ⟨none, "", some e⟩) := by
  intro dC dR c r id e res
  refine ⟨?_, ?_, ?_, ?_, ?_, ?_⟩ <;>
    first
      | (intro h; subst h; simp [snapshotCreate, snapshotRestore])
      | simp [snapshotCreate, snapshotRestore]

/-- C8 witness: with a decoded id snap-9 Create returns snap-9 and nil; on
a transport failure it returns the empty string with that error. -/
theorem C8_snapshot_create_restore_id_witness :
    snapshotCreate (Except.ok ()) (Except.ok ⟨"snap-9"⟩) ⟨"n", ⟨none, none⟩⟩ =
      ⟨some ⟨"POST", "/v1/snapshots", [],
        some (Json.obj (CreateSnapshotRequest.toJson ⟨"n", ⟨none, none⟩⟩))⟩, "snap-9", none⟩ ∧
    (snapshotCreate (Except.ok ()) (Except.error (GoError.httpError "boom"))
      ⟨"n", ⟨none, none⟩⟩).value = "" ∧
    snapshotRestore (Except.ok ()) (Except.ok ⟨"inst-7"⟩) "snap-1" rsWitness =
      ⟨some ⟨"POST", "/v1/snapshots/snap-1", [],
        some (Json.obj rsWitness.toJson)⟩, "inst-7", none⟩ := by
  have h1 := C8_snapshot_create_restore_id (Except.ok ⟨"snap-9"⟩) (Except.ok ⟨"inst-7"⟩)
    ⟨"n", ⟨none, none⟩⟩ rsWitness "snap-1" (GoError.httpError "boom") ⟨"snap-9"⟩
  have h2 := C8_snapshot_create_restore_id (Except.error (GoError.httpError "boom"))
    (Except.ok ⟨"inst-7"⟩) ⟨"n", ⟨none, none⟩⟩ rsWitness "snap-1"
    (GoError.httpError "boom") ⟨"snap-9"⟩
  have h3 := C8_snapshot_create_restore_id (Except.ok ⟨"snap-9"⟩) (Except.ok ⟨"inst-7"⟩)
    ⟨"n", ⟨none, none⟩⟩ rsWitness "snap-1" (GoError.httpError "boom") ⟨"inst-7"⟩
  exact ⟨h1.1 rfl, (h2.2.1 rfl).1, h3.2.2.2.1 rfl⟩

/-- C9: the serialized bodies of health-check Create and Update are
invariant under the path-routing fields LoadBalancerID and HealthCheckID
(tagged json dash) and carry only the health-check configuration keys; the
issued requests carry exactly those bodies. -/
theorem C9_routing_fields_not_serialized :
    ∀ (c : CreateNetworkHealthCheckRequest) (u : UpdateNetworkHealthCheckRequest)
      (lb hc : String) (oc : Except GoError NetworkHealthCheckResponse)
      (ou : Except GoError Unit),
      (({ c with LoadBalancerID := lb } : CreateNetworkHealthCheckRequest).toJson =
        c.toJson) ∧
      (({ u with LoadBalancerID := lb, HealthCheckID := hc } :
        UpdateNetworkHealthCheckRequest).toJson = u.toJson) ∧
      (∀ k v, (k, v) ∈ c.toJson → k ∈ ["name", "description", "protocol", "path", "port",
        "healthy_status_code", "interval_seconds", "timeout_seconds",
        "initial_delay_seconds", "healthy_threshold_count", "unhealthy_threshold_count"]) ∧
      (∀ k v, (k, v) ∈ u.toJson → k ∈ ["protocol", "path", "port", "healthy_status_code",
        "interval_seconds", "timeout_seconds", "initial_delay_seconds",
        "healthy_threshold_count", "unhealthy_threshold_count"]) ∧
      ((healthCheckCreate (Except.ok ()) oc c).request =
        some ⟨"POST", urlNetworkLoadBalancer c.LoadBalancerID [health_checks], [],
          some (Json.obj c.toJson)⟩) ∧
      ((healthCheckUpdate (Except.ok ()) ou u).request =
        some ⟨"PUT", urlNetworkLoadBalancer u.LoadBalancerID [health_checks, u.HealthCheckID],
          [], some (Json.obj u.toJson)⟩) := by
  intro c u lb hc oc ou
  obtain ⟨clb, cn, cdes, cpr, cpa, cpo, chsc, cis, cts, cids, chtc, cutc⟩ := c
  obtain ⟨ulb, uhc, upr, upa, upo, uhsc, uis, uts, uids, uhtc, uutc⟩ := u
  refine ⟨rfl, rfl, ?_, ?_, ?_, ?_⟩
  · intro k v hm
    simp only [CreateNetworkHealthCheckRequest.toJson, List.mem_append,
      List.mem_singleton, or_assoc] at hm
    rcases hm with hm | hm | hm | hm | hm | hm | hm | hm | hm | hm | hm
    · simp_all
    · cases cdes <;> simp_all
    · simp_all
    · cases cpa <;> simp_all
    · simp_all
    · cases chsc <;> simp_all
    · cases cis <;> simp_all
    · cases cts <;> simp_all
    · cases cids <;> simp_all
    · cases chtc <;> simp_all
    · cases cutc <;> simp_all
  · intro k v hm
    simp only [UpdateNetworkHealthCheckRequest.toJson, List.mem_append,
      List.mem_singleton, or_assoc] at hm
    rcases hm with hm | hm | hm | hm | hm | hm | hm | hm | hm
    · simp_all
    · cases upa <;> simp_all
    · simp_all
    · cases uhsc <;> simp_all
    · cases uis <;> simp_all
    · cases uts <;> simp_all
    · cases uids <;> simp_all
    · cases uhtc <;> simp_all
    · cases uutc <;> simp_all
  · cases oc <;> simp [healthCheckCreate]
  · cases ou <;> simp [healthCheckUpdate]

/-- C9 witness: at a concrete create payload, changing the load-balancer
id leaves the body unchanged and every body key is a configuration key. -/
theorem C9_routing_fields_not_serialized_witness :
    (({ hcCreateWitness with LoadBalancerID := "lb-9" } :
      CreateNetworkHealthCheckRequest).toJson = hcCreateWitness.toJson) ∧
    ("name" ∈ ["name", "description", "protocol", "path", "port",
      "healthy_status_code", "interval_seconds", "timeout_seconds",
      "initial_delay_seconds", "healthy_threshold_count", "unhealthy_threshold_count"]) := by
  have h := C9_routing_fields_not_serialized hcCreateWitness hcUpdateWitness "lb-9" "hc-9"
    (Except.error (GoError.httpError "e")) (Except.error (GoError.httpError "e"))
  exact ⟨h.1, h.2.2.1 "name" (Json.str "n") (by simp [hcCreateWitness,
    CreateNetworkHealthCheckRequest.toJson])⟩

/-- C10: across all four services, whenever an operation returns a non-nil
error its result is the zero value of its type (nil pointer, nil slice or
empty string), and a non-zero result comes only with a nil error;
the shared execute helper is modelled as never reporting both a result and
an error. -/
theorem C10_zero_value_on_error :
    ∀ (oNodes : Except GoError NodeList) (oList : Except GoError NodePoolList)
      (oNP : Except GoError NodePool) (nr : Except GoError Unit)
      (oLS : Except GoError ListSnapshotsResponse) (oId : Except GoError IdResponse)
      (oSnap : Except GoError Snapshot) (oCred : Except GoError CredentialsResponse)
      (oHC : Except GoError NetworkHealthCheckResponse)
      (oPag : Except GoError NetworkPaginatedHealthCheckResponse)
      (cid npid id : String) (optsK : ListOptions) (optsC : ComputeListOptions)
      (cnp : CreateNodePoolRequest) (pnp : PatchNodePoolRequest)
      (cs : CreateSnapshotRequest) (rs : RestoreSnapshotRequest)
      (expand : List String) (hcC : CreateNetworkHealthCheckRequest)
      (hcG : GetNetworkHealthCheckRequest) (hcL : ListNetworkHealthCheckRequest),
      ((nodePoolNodes oNodes cid npid).error.isSome →
        (nodePoolNodes oNodes cid npid).value = []) ∧
      ((nodePoolList oList cid optsK).error.isSome →
        (nodePoolList oList cid optsK).value = []) ∧
      ((nodePoolCreate oNP cid cnp).error.isSome →
        (nodePoolCreate oNP cid cnp).value = none) ∧
      ((nodePoolGet oNP cid npid).error.isSome →
        (nodePoolGet oNP cid npid).value = none) ∧
      ((nodePoolUpdate oNP cid npid pnp).error.isSome →
        (nodePoolUpdate oNP cid npid pnp).value = none) ∧
      ((snapshotList nr oLS optsC).error.isSome →
        (snapshotList nr oLS optsC).value = []) ∧
      ((snapshotCreate nr oId cs).error.isSome →
        (snapshotCreate nr oId cs).value = "") ∧
      ((snapshotGet nr oSnap id expand).error.isSome →
        (snapshotGet nr oSnap id expand).value = none) ∧
      ((snapshotRestore nr oId id rs).error.isSome →
        (snapshotRestore nr oId id rs).value = "") ∧
      ((credentialsGet oCred).error.isSome → (credentialsGet oCred).value = none) ∧
      ((credentialsResetPassword oCred).error.isSome →
        (credentialsResetPassword oCred).value = none) ∧
      ((healthCheckCreate nr oHC hcC).error.isSome →
        (healthCheckCreate nr oHC hcC).value = none) ∧
      ((healthCheckGet nr oHC hcG).error.isSome →
        (healthCheckGet nr oHC hcG).value = none) ∧
      ((healthCheckList nr oPag hcL).error.isSome →
        (healthCheckList nr oPag hcL).value = []) ∧
      ((snapshotCreate nr oId cs).value ≠ "" → (snapshotCreate nr oId cs).error = none) ∧
      ((nodePoolGet oNP cid npid).value ≠ none → (nodePoolGet oNP cid npid).error = none) := by
  intro oNodes oList oNP nr oLS oId oSnap oCred oHC oPag cid npid id optsK optsC
    cnp pnp cs rs expand hcC hcG hcL
  refine ⟨?_, ?_, ?_, ?_, ?_, ?_, ?_, ?_, ?_, ?_, ?_, ?_, ?_, ?_, ?_, ?_⟩
  · by_cases h1 : cid = "" <;> by_cases h2 : npid = "" <;> cases oNodes <;>
      simp [nodePoolNodes, h1, h2]
  · by_cases h1 : cid = "" <;> cases oList <;> simp [nodePoolList, h1]
  · by_cases h1 : cid = "" <;> cases oNP <;> simp [nodePoolCreate, h1]
  · by_cases h1 : cid = "" <;> by_cases h2 : npid = "" <;> cases oNP <;>
      simp [nodePoolGet, h1, h2]
  · by_cases h1 : cid = "" <;> by_cases h2 : npid = "" <;> cases oNP <;>
      simp [nodePoolUpdate, h1, h2]
  · cases nr <;> cases oLS <;> simp [snapshotList]
  · cases nr <;> cases oId <;> simp [snapshotCreate]
  · cases nr <;> cases oSnap <;> simp [snapshotGet]
  · cases nr <;> cases oId <;> simp [snapshotRestore]
  · cases oCred <;> simp [credentialsGet]
  · cases oCred <;> simp [credentialsResetPassword]
  · cases nr <;> cases oHC <;> simp [healthCheckCreate]
  · cases nr <;> cases oHC <;> simp [healthCheckGet]
  · cases nr <;> cases oPag <;> simp [healthCheckList]
  · cases nr <;> cases oId <;> simp [snapshotCreate]
  · by_cases h1 : cid = "" <;> by_cases h2 : npid = "" <;> cases oNP <;>
      simp [nodePoolGet, h1, h2]

/-- C10 witness: concrete error paths return the zero values and a
non-empty Create result comes with a nil error. -/
theorem C10_zero_value_on_error_witness :
    (snapshotCreate (Except.ok ()) (Except.error (GoError.httpError "boom"))
      ⟨"n", ⟨none, none⟩⟩).value = "" ∧
    (nodePoolGet (Except.error (GoError.httpError "boom")) "cl-1" "np-1").value = none ∧
    (credentialsGet (Except.error (GoError.httpError "boom"))).value = none ∧
    (snapshotCreate (Except.ok ()) (Except.ok ⟨"snap-9"⟩)
      ⟨"n", ⟨none, none⟩⟩).error = none := by
  have h := C10_zero_value_on_error (Except.error (GoError.httpError "boom"))
    (Except.error (GoError.httpError "boom")) (Except.error (GoError.httpError "boom"))
    (Except.ok ()) (Except.error (GoError.httpError "boom"))
    (Except.error (GoError.httpError "boom")) (Except.error (GoError.httpError "boom"))
    (Except.error (GoError.httpError "boom")) (Except.error (GoError.httpError "boom"))
    (Except.error (GoError.httpError "boom")) "cl-1" "np-1" "snap-1"
    ⟨none, none, none, []⟩ ⟨none, none, none, []⟩ cnpWitness ⟨none, none⟩
    ⟨"n", ⟨none, none⟩⟩ rsWitness [] hcCreateWitness ⟨"lb", "hc"⟩ ⟨"lb", none, none, none⟩
  have h2 := C10_zero_value_on_error (Except.error (GoError.httpError "boom"))
    (Except.error (GoError.httpError "boom")) (Except.error (GoError.httpError "boom"))
    (Except.ok ()) (Except.error (GoError.httpError "boom"))
    (Except.ok ⟨"snap-9"⟩) (Except.error (GoError.httpError "boom"))
    (Except.error (GoError.httpError "boom")) (Except.error (GoError.httpError "boom"))
    (Except.error (GoError.httpError "boom")) "cl-1" "np-1" "snap-1"
    ⟨none, none, none, []⟩ ⟨none, none, none, []⟩ cnpWitness ⟨none, none⟩
    ⟨"n", ⟨none, none⟩⟩ rsWitness [] hcCreateWitness ⟨"lb", "hc"⟩ ⟨"lb", none, none, none⟩
  exact ⟨h.2.2.2.2.2.2.1 rfl, h.2.2.2.1 rfl, h.2.2.2.2.2.2.2.2.2.1 rfl,
    h2.2.2.2.2.2.2.2.2.2.2.2.2.2.2.1 (by decide)⟩
